import Mathlib

/-!
Shallow embedding of the Stream Resolution and HLS Relay Engine of the
GlitchBox repository (src/movie_api.py), covering:

* `extract_bingeflix_stream` (tier 0, local Playwright subprocess, with the
  result cache `bingeflix_cache`, the manifest cache `bingeflix_m3u8_cache`
  and the single-flight semaphore `bingeflix_lock`);
* `call_vidsrc_scraper` (tier 1, remote extraction service client);
* `extract_vidsrc_stream` (the tiered resolver with the HTML fallback and
  the embed fallback);
* `serve_bingeflix_m3u8` (the cache-backed manifest endpoint) and the
  manifest rewriting loop of `proxy_hls` (the passthrough relay proxy).

Environment effects (the subprocess run, the remote HTTP call, the HTML
scrape, the upstream fetch) are modelled as explicit outcome values passed
to the functions; exceptions raised by the environment are outcome
constructors, so a Lean function that is total on every outcome models a
Python function that never propagates an exception.  Wall-clock time is an
explicit `Nat` argument.  Python dict assignment is modelled as a shadowing
insert into an association list whose lookup takes the most recent binding.
Every observable side effect (cache hit, semaphore acquire and release,
subprocess launch, remote HTTP call, HTML fetch) is recorded in an event
trace returned alongside the result.
-/

namespace GlitchBox

/-- Whitespace characters removed by the Python `str.strip()` method. -/
def isPyWs (c : Char) : Bool :=
  c = ' ' || c = '\t' || c = '\n' || c = '\r' || c = '\x0b' || c = '\x0c'

/-- Models the Python `str.strip()` method: drop whitespace at both ends. -/
def pyStrip (s : String) : String :=
  ⟨((s.data.dropWhile isPyWs).reverse.dropWhile isPyWs).reverse⟩

/-- Models the Python `str.startswith` method at character level. -/
def pyStartsWith (s pre : String) : Bool :=
  pre.data.isPrefixOf s.data

/-- Splits a character list on the newline character, keeping empty
pieces, exactly like the Python `str.split` method with a one-character
separator. -/
def splitNlChars : List Char → List (List Char)
  | [] => [[]]
  | c :: t =>
    let r := splitNlChars t
    if c = '\n' then [] :: r
    else
      match r with
      | [] => [[c]]
      | h :: t2 => (c :: h) :: t2

/-- Models the Python expression `content.split('\n')`. -/
def pySplitLines (s : String) : List String :=
  (splitNlChars s.data).map (fun l => ⟨l⟩)

/-- Models the Python expression `'\n'.join(lines)`. -/
def pyJoinLines (lines : List String) : String :=
  ⟨(List.intersperse ['\n'] (lines.map String.data)).flatten⟩

/-- Models Python f-string interpolation of an optional integer: `None`
prints as the literal string "None". -/
def optStr : Option Nat → String
  | none => "None"
  | some n => toString n

/-- Python truthiness of an optional string: `None` and the empty string
are falsy. -/
def pyTruthy : Option String → Bool
  | none => false
  | some s => !s.isEmpty

/-- Uppercase hexadecimal digit, as produced by `urllib.parse.quote`. -/
def hexDigit (n : Nat) : Char :=
  if n < 10 then Char.ofNat (48 + n) else Char.ofNat (55 + n)

/-- Percent-encoding of one (ASCII) character. -/
def pctEncodeChar (c : Char) : List Char :=
  ['%', hexDigit (c.toNat / 16 % 16), hexDigit (c.toNat % 16)]

/-- Models `urllib.parse.quote`: unreserved characters (letters, digits,
`_.-~`) pass through; `keepSlash` tells whether `/` is in the safe set
(`quote` defaults to `safe=a-slash`; the code also calls `quote(x, safe=empty)`). -/
def quoteSafe (keepSlash : Bool) (s : String) : String :=
  ⟨(s.data.map (fun c =>
      if c.isAlphanum || c = '_' || c = '.' || c = '-' || c = '~'
          || (keepSlash && c = '/') then [c]
      else pctEncodeChar c)).flatten⟩

/-- Decides whether `pat` occurs as a contiguous sublist of the second
argument. -/
def hasSubList (pat : List Char) : List Char → Bool
  | [] => pat.isEmpty
  | l@(_ :: t) => pat.isPrefixOf l || hasSubList pat t

/-- Models the Python `in` operator on strings: substring containment. -/
def strContains (s pat : String) : Bool :=
  hasSubList pat.data s.data

/-- Splits a character list at its last `/`: returns `some (b, a)` with
`l = b ++ a-slash-a` and `a` slash-free, or `none` when no `/` occurs. -/
def splitLastSlash : List Char → Option (List Char × List Char)
  | [] => none
  | c :: t =>
    match splitLastSlash t with
    | some (b, a) => some (c :: b, a)
    | none => if c = '/' then some ([], t) else none

/-- Models the Python expression `s.rsplit('/', 1)[0]`: everything before
the last `/`, or the whole string when it has no `/`. -/
def rsplitSlashHead (s : String) : String :=
  match splitLastSlash s.data with
  | none => s
  | some (b, _) => ⟨b⟩

/-- Lookup in an association-list model of a Python dict (most recent
binding wins). -/
def lookupC {α : Type} : List (String × α) → String → Option α
  | [], _ => none
  | (k, v) :: t, key => if k = key then some v else lookupC t key

/-- Models Python dict assignment `m[k] = v` as a shadowing insert. -/
def insertC {α : Type} (m : List (String × α)) (k : String) (v : α) :
    List (String × α) :=
  (k, v) :: m

/-- Observable side effects of one resolver call. -/
inductive Ev
  | cacheHit
  | acquireOk
  | acquireFail
  | launchSubproc
  | release
  | remoteHttp
  | htmlFetch
deriving DecidableEq, Repr

/-- The stream dict returned by the extraction tiers (keys `type`, `url`,
`source`, and, when the tier provides them, `subtitles`, `original_url`,
`referer`; absent optional keys are `none` and an absent subtitle list is
`[]`). -/
structure StreamData where
  type : String
  url : String
  source : String
  subtitles : List String
  original_url : Option String
  referer : Option String
deriving DecidableEq, Repr

/-- One entry of `bingeflix_cache` (the Result Cache). -/
structure ResultEntry where
  data : StreamData
  timestamp : Nat
deriving DecidableEq, Repr

/-- One entry of `bingeflix_m3u8_cache` (the Manifest Cache). -/
structure ManifestEntry where
  content : String
  referer : String
  base_url : String
  timestamp : Nat
deriving DecidableEq, Repr

/-- The process-wide shared state: the two caches and the single-flight
semaphore (`bingeflix_lock`, capacity one, held or free). -/
structure ServerState where
  bingeflix_cache : List (String × ResultEntry)
  bingeflix_m3u8_cache : List (String × ManifestEntry)
  lockHeld : Bool
deriving DecidableEq, Repr

/-- `BINGEFLIX_CACHE_TTL = 15 * 60` seconds. -/
def BINGEFLIX_CACHE_TTL : Nat := 15 * 60

/-- The cache key `f"{tmdb_id}_{content_type}_{season}_{episode}"`. -/
def cache_key (tmdb_id : Nat) (content_type : String)
    (season episode : Option Nat) : String :=
  toString tmdb_id ++ "_" ++ content_type ++ "_" ++ optStr season ++ "_"
    ++ optStr episode

/-- The JSON object printed by the scraper subprocess, as read by
`extract_bingeflix_stream` (`success`, `hls_url`, `hls_content`,
`referer`, `subtitles`). -/
structure ScraperJson where
  success : Bool
  hls_url : Option String
  hls_content : Option String
  referer : Option String
  subtitles : List String
deriving DecidableEq, Repr

/-- Outcome of running the scraper subprocess: a 90s timeout
(`subprocess.TimeoutExpired`), any other exception in the guarded region,
or a completed run with its exit code and the JSON parse of stdout
(`none` when `json.loads` fails). -/
inductive SubprocOutcome
  | timeout
  | exc
  | ran (returncode : Int) (parsed : Option ScraperJson)
deriving DecidableEq, Repr

/-- The fresh-cache-hit check at the top of `extract_bingeflix_stream`:
`cached = bingeflix_cache.get(cache_key)` followed by
`if cached and (time.time() - cached['timestamp']) < BINGEFLIX_CACHE_TTL`. -/
def cache_hit (st : ServerState) (now : Nat) (key : String) :
    Option StreamData :=
  match lookupC st.bingeflix_cache key with
  | some cached =>
    if now - cached.timestamp < BINGEFLIX_CACHE_TTL then some cached.data
    else none
  | none => none

/-- The guarded region of `extract_bingeflix_stream` (the body of its
`try`), entered with the semaphore held; returns the updated caches and
the result.  The subprocess is launched on every path of this region. -/
def bingeflix_guarded (st : ServerState) (now : Nat) (key : String)
    (out : SubprocOutcome) : ServerState × Option StreamData :=
  match out with
  | .timeout => (st, none)
  | .exc => (st, none)
  | .ran returncode parsed =>
    if returncode ≠ 0 then (st, none)
    else
      match parsed with
      | none => (st, none)
      | some data =>
        if !(data.success && pyTruthy data.hls_url) then (st, none)
        else
          let hls_url := data.hls_url.getD ""
          let referer := data.referer.getD "https://bingeflix.tv/"
          let subtitles := data.subtitles
          if pyTruthy data.hls_content then
            let content := data.hls_content.getD ""
            let stream_id := key
            let base_url := rsplitSlashHead hls_url ++ "/"
            let m2 := insertC st.bingeflix_m3u8_cache stream_id
              ⟨content, referer, base_url, now⟩
            let st2 := { st with bingeflix_m3u8_cache := m2 }
            let proxied_url := "/api/hls/bingeflix/" ++ quoteSafe false stream_id
            let stream_data : StreamData :=
              ⟨"direct", proxied_url, "bingeflix", subtitles, some hls_url,
                some referer⟩
            let r2 := insertC st2.bingeflix_cache key ⟨stream_data, now⟩
            ({ st2 with bingeflix_cache := r2 }, some stream_data)
          else
            let proxied_url := "/api/hls/proxy?url=" ++ quoteSafe false hls_url
              ++ "&referer=" ++ quoteSafe false referer
            let stream_data : StreamData :=
              ⟨"direct", proxied_url, "bingeflix", subtitles, some hls_url,
                some referer⟩
            let r2 := insertC st.bingeflix_cache key ⟨stream_data, now⟩
            ({ st with bingeflix_cache := r2 }, some stream_data)

/-- The acquire-and-run part of `extract_bingeflix_stream`, reached on a
cache miss: the non-blocking `bingeflix_lock.acquire(blocking=False)`,
the guarded region, and the `finally: bingeflix_lock.release()`. -/
def extract_bingeflix_locked (st : ServerState) (now : Nat) (key : String)
    (out : SubprocOutcome) : ServerState × Option StreamData × List Ev :=
  if st.lockHeld then (st, none, [Ev.acquireFail])
  else
    let stL := { st with lockHeld := true }
    let g := bingeflix_guarded stL now key out
    ({ g.1 with lockHeld := false }, g.2,
      [Ev.acquireOk, Ev.launchSubproc, Ev.release])

/-- Tier 0: `extract_bingeflix_stream(tmdb_id, content_type, season,
episode)` run against shared state `st` at time `now` with subprocess
outcome `out`. -/
def extract_bingeflix_stream (st : ServerState) (now : Nat) (tmdb_id : Nat)
    (content_type : String) (season episode : Option Nat)
    (out : SubprocOutcome) : ServerState × Option StreamData × List Ev :=
  let key := cache_key tmdb_id content_type season episode
  match cache_hit st now key with
  | some d => (st, some d, [Ev.cacheHit])
  | none => extract_bingeflix_locked st now key out

/-- One domain entry of the remote extraction service response. -/
structure DomainInfo where
  hls_url : Option String
  referer : Option String
  subtitles : List String
deriving DecidableEq, Repr

/-- Outcome of the remote extraction service call in
`call_vidsrc_scraper`: `fail` covers connection errors, timeouts, HTTP
errors, JSON errors and a falsy `success`/`results`; `ok` carries the
`results` dict in insertion order. -/
inductive RemoteOutcome
  | fail
  | ok (results : List (String × DomainInfo))
deriving DecidableEq, Repr

/-- The domain loop of `call_vidsrc_scraper`: first domain whose
`hls_url` is truthy. -/
def pickDomain : List (String × DomainInfo) → Option (String × DomainInfo)
  | [] => none
  | (d, info) :: rest =>
    if pyTruthy info.hls_url then some (d, info) else pickDomain rest

/-- Tier 1: `call_vidsrc_scraper(...)`, given the outcome of its HTTP call. -/
def call_vidsrc_scraper (out : RemoteOutcome) : Option StreamData :=
  match out with
  | .fail => none
  | .ok results =>
    match pickDomain results with
    | none => none
    | some (domain, info) =>
      let hls_url := info.hls_url.getD ""
      let referer := info.referer.getD "https://vidnest.fun/"
      some ⟨"direct",
        "/api/hls/proxy?url=" ++ quoteSafe false hls_url ++ "&referer="
          ++ quoteSafe false referer,
        domain, info.subtitles, some hls_url, some referer⟩

/-- Outcome of the tier 2 HTML fallback in `extract_vidsrc_stream`:
an exception anywhere in its `try` block, a manifest URL found in the
embed page, or nothing found. -/
inductive HtmlOutcome
  | exc
  | found (m3u8_url : String)
  | notFound
deriving DecidableEq, Repr

/-- The canonical embed URL built from the request:
`https://vidsrc.to/embed/movie/{id}` for movies,
`https://vidsrc.to/embed/tv/{id}/{season}/{episode}` otherwise. -/
def vidsrc_embed_url (tmdb_id : Nat) (content_type : String)
    (season episode : Option Nat) : String :=
  if content_type = "movie" then
    "https://vidsrc.to/embed/movie/" ++ toString tmdb_id
  else
    "https://vidsrc.to/embed/tv/" ++ toString tmdb_id ++ "/"
      ++ optStr season ++ "/" ++ optStr episode

/-- The tiered resolver `extract_vidsrc_stream`: tier 0, then tier 1, then
the HTML fallback, then the embed fallback.  Total in every combination of
tier outcomes, mirroring that the Python function never propagates an
exception (each tier catches its own, and the tier 2 `except` returns the
embed fallback). -/
def extract_vidsrc_stream (st : ServerState) (now : Nat) (tmdb_id : Nat)
    (content_type : String) (season episode : Option Nat)
    (out0 : SubprocOutcome) (out1 : RemoteOutcome) (out2 : HtmlOutcome) :
    ServerState × StreamData × List Ev :=
  let t0 := extract_bingeflix_stream st now tmdb_id content_type season
    episode out0
  match t0.2.1 with
  | some d => (t0.1, d, t0.2.2)
  | none =>
    match call_vidsrc_scraper out1 with
    | some d => (t0.1, d, t0.2.2 ++ [Ev.remoteHttp])
    | none =>
      let vidsrc_url := vidsrc_embed_url tmdb_id content_type season episode
      match out2 with
      | .found u =>
        (t0.1, ⟨"direct", u, "vidsrc.to", [], none, none⟩,
          t0.2.2 ++ [Ev.remoteHttp, Ev.htmlFetch])
      | .notFound =>
        (t0.1, ⟨"embed", vidsrc_url, "vidsrc.to", [], none, none⟩,
          t0.2.2 ++ [Ev.remoteHttp, Ev.htmlFetch])
      | .exc =>
        (t0.1, ⟨"embed", vidsrc_url, "vidsrc.to", [], none, none⟩,
          t0.2.2 ++ [Ev.remoteHttp, Ev.htmlFetch])

/-- The URI-line test shared by both manifest rewriting loops:
`stripped and not stripped.startswith('#')`. -/
def is_uri_line (line : String) : Bool :=
  !(pyStrip line).isEmpty && !pyStartsWith (pyStrip line) "#"

/-- Target resolution shared by both rewriting loops: a line starting with
`http` is used as-is, any other line is concatenated to `base_url`. -/
def resolveTarget (base_url line : String) : String :=
  if pyStartsWith line "http" then line else base_url ++ line

/-- The rewritten proxy URL
`/api/hls/proxy?url={quote(segment_url)}&referer={quote(referer)}`;
`keepSlash` reflects which quote variant the path uses (the cached path
quotes with `safe=empty`, the passthrough path with the default safe set). -/
def proxyUrlFor (keepSlash : Bool) (segment_url referer : String) : String :=
  "/api/hls/proxy?url=" ++ quoteSafe keepSlash segment_url ++ "&referer="
    ++ quoteSafe keepSlash referer

/-- One iteration of the rewriting loop of `serve_bingeflix_m3u8`: a URI
line is replaced by a proxy URL; any other line is appended unchanged
(`new_lines.append(line)` with `line` the original). -/
def serve_rewrite_line (base_url referer line : String) : String :=
  let stripped := pyStrip line
  if !stripped.isEmpty && !pyStartsWith stripped "#" then
    proxyUrlFor false (resolveTarget base_url stripped) referer
  else line

/-- One iteration of the rewriting loop of `proxy_hls`: the source rebinds
`line = line.strip()` before testing, so a non-URI line is appended in its
stripped form. -/
def proxy_rewrite_line (base_url referer line : String) : String :=
  let line := pyStrip line
  if !line.isEmpty && !pyStartsWith line "#" then
    proxyUrlFor true (resolveTarget base_url line) referer
  else line

/-- The `new_lines` list built by the loop of `serve_bingeflix_m3u8`. -/
def serve_rewrite_lines (base_url referer : String) (lines : List String) :
    List String :=
  lines.map (serve_rewrite_line base_url referer)

/-- The `new_lines` list built by the loop of `proxy_hls`. -/
def proxy_rewrite_lines (base_url referer : String) (lines : List String) :
    List String :=
  lines.map (proxy_rewrite_line base_url referer)

/-- The full manifest rewrite of `serve_bingeflix_m3u8`:
split on newline, rewrite each line, join with newline. -/
def serve_rewrite (content base_url referer : String) : String :=
  pyJoinLines (serve_rewrite_lines base_url referer
    (pySplitLines content))

/-- The full manifest rewrite of `proxy_hls`. -/
def proxy_rewrite (content base_url referer : String) : String :=
  pyJoinLines (proxy_rewrite_lines base_url referer
    (pySplitLines content))

/-- Response of the cache-backed manifest endpoint: the 404 error body
`{"error": "Stream not found or expired"}` or a rewritten manifest. -/
inductive ServeResult
  | notFound
  | body (content : String)
deriving DecidableEq, Repr

/-- The endpoint `GET /api/hls/bingeflix/{stream_id}`
(`serve_bingeflix_m3u8`): a missing entry, or one whose age exceeds
`BINGEFLIX_CACHE_TTL`, yields the 404 response; otherwise the cached body
is rewritten with the cached `base_url` and `referer`. -/
def serve_bingeflix_m3u8 (st : ServerState) (now : Nat) (stream_id : String) :
    ServeResult :=
  match lookupC st.bingeflix_m3u8_cache stream_id with
  | none => ServeResult.notFound
  | some cached =>
    if now - cached.timestamp > BINGEFLIX_CACHE_TTL then ServeResult.notFound
    else
      ServeResult.body (serve_rewrite cached.content cached.base_url
        cached.referer)

/-- The upstream response seen by `proxy_hls` after its `requests.get`. -/
structure UpstreamResp where
  content_type : String
  body : String
  status : Nat
deriving DecidableEq, Repr

/-- Response of the passthrough proxy: a rewritten manifest, or the
upstream body streamed through with the upstream status. -/
inductive ProxyResult
  | manifest (content : String)
  | passthrough (body : String) (status : Nat)
deriving DecidableEq, Repr

/-- The manifest-detection condition of `proxy_hls`:
`'.m3u8' in url or 'application/vnd.apple.mpegurl' in content_type or
'application/x-mpegurl' in content_type` (substring containment). -/
def is_manifest_fetch (url content_type : String) : Bool :=
  strContains url ".m3u8"
    || strContains content_type "application/vnd.apple.mpegurl"
    || strContains content_type "application/x-mpegurl"

/-- The manifest-or-passthrough branch of `GET /api/hls/proxy`
(`proxy_hls`), applied to a successfully fetched upstream response: a
detected manifest is rewritten with `url.rsplit('/', 1)[0] + '/'` as
base; anything else is streamed through unmodified. -/
def proxy_hls (url referer : String) (resp : UpstreamResp) : ProxyResult :=
  if is_manifest_fetch url resp.content_type then
    let base_url := rsplitSlashHead url ++ "/"
    ProxyResult.manifest (proxy_rewrite resp.body base_url referer)
  else
    ProxyResult.passthrough resp.body resp.status

/-- Whether a proxy response took the manifest branch. -/
def isManifestResult : ProxyResult → Bool
  | .manifest _ => true
  | .passthrough _ _ => false

/-! Definitions transcribed from the words of the specification, for the
refinement comparisons; they are deliberately written from the spec
sentences, not from the source. -/

/-- Modelled from the spec words "absolute URIs (scheme-prefixed)": a URI
is scheme-prefixed when it contains the `://` scheme separator. -/
def schemePrefixed (s : String) : Bool :=
  strContains s "://"

/-- Modelled from the spec words of the rewriter contract: scheme-prefixed
URIs are used as-is, relative URIs are resolved by concatenation with the
base. -/
def spec_resolveTarget (base_url line : String) : String :=
  if schemePrefixed line then line else base_url ++ line

/-- Modelled from the spec words of the relay contract: manifest content is
detected when the target URL has an HLS-manifest suffix or the response
content type is an HLS manifest type. -/
def spec_is_manifest_fetch (url content_type : String) : Bool :=
  ".m3u8".data.isSuffixOf url.data
    || content_type = "application/vnd.apple.mpegurl"
    || content_type = "application/x-mpegurl"

/-! Helper lemmas. -/

theorem lookupC_insertC_self {α : Type} (m : List (String × α)) (k : String)
    (v : α) : lookupC (insertC m k v) k = some v := by
  simp [insertC, lookupC]

theorem strData_append (a b : String) : (a ++ b).data = a.data ++ b.data := by
  cases a
  cases b
  rfl

theorem splitLastSlash_none :
    ∀ l : List Char, splitLastSlash l = none → '/' ∉ l := by
  intro l
  induction l with
  | nil => intro _; simp
  | cons c t ih =>
    intro h
    simp only [splitLastSlash] at h
    cases ht : splitLastSlash t with
    | some p =>
      obtain ⟨b, a⟩ := p
      simp [ht] at h
    | none =>
      simp only [ht] at h
      by_cases hc : c = '/'
      · simp [hc] at h
      · simp only [List.mem_cons, not_or]
        exact ⟨fun he => hc he.symm, ih ht⟩

theorem splitLastSlash_eq :
    ∀ l b a, splitLastSlash l = some (b, a) → l = b ++ '/' :: a ∧ '/' ∉ a := by
  intro l
  induction l with
  | nil => intro b a h; simp [splitLastSlash] at h
  | cons c t ih =>
    intro b a h
    simp only [splitLastSlash] at h
    cases ht : splitLastSlash t with
    | some p =>
      obtain ⟨b0, a0⟩ := p
      simp only [ht] at h
      obtain ⟨hb, ha⟩ := Prod.mk.injEq .. ▸ Option.some.inj h
      obtain ⟨h1, h2⟩ := ih b0 a0 ht
      subst hb ha
      exact ⟨by rw [h1]; rfl, h2⟩
    | none =>
      simp only [ht] at h
      by_cases hc : c = '/'
      · subst hc
        simp only [if_pos rfl] at h
        obtain ⟨hb, ha⟩ := Prod.mk.injEq .. ▸ Option.some.inj h
        subst hb ha
        exact ⟨rfl, splitLastSlash_none t ht⟩
      · simp [hc] at h

theorem rsplitSlashHead_spec (u : String) (h : '/' ∈ u.data) :
    ∃ seg : String, '/' ∉ seg.data ∧ (rsplitSlashHead u ++ "/") ++ seg = u := by
  cases hs : splitLastSlash u.data with
  | none => exact absurd h (splitLastSlash_none _ hs)
  | some p =>
    obtain ⟨b, a⟩ := p
    obtain ⟨h1, h2⟩ := splitLastSlash_eq _ _ _ hs
    refine ⟨⟨a⟩, h2, ?_⟩
    have hr : rsplitSlashHead u = ⟨b⟩ := by
      simp [rsplitSlashHead, hs]
    rw [hr]
    apply String.ext
    rw [strData_append, strData_append]
    rw [h1]
    simp

/-- Evaluation of `extract_bingeflix_stream` on a fresh cache hit. -/
theorem extract_cachehit (st : ServerState) (now : Nat) (tmdb_id : Nat)
    (ct : String) (season episode : Option Nat) (out : SubprocOutcome)
    (d : StreamData)
    (h : cache_hit st now (cache_key tmdb_id ct season episode) = some d) :
    extract_bingeflix_stream st now tmdb_id ct season episode out
      = (st, some d, [Ev.cacheHit]) := by
  simp [extract_bingeflix_stream, h]

/-- On a cache miss, `extract_bingeflix_stream` proceeds to the acquire
step. -/
theorem extract_miss (st : ServerState) (now : Nat) (tmdb_id : Nat)
    (ct : String) (season episode : Option Nat) (out : SubprocOutcome)
    (h : cache_hit st now (cache_key tmdb_id ct season episode) = none) :
    extract_bingeflix_stream st now tmdb_id ct season episode out
      = extract_bingeflix_locked st now (cache_key tmdb_id ct season episode)
          out := by
  simp [extract_bingeflix_stream, h]

/-- A non-blocking acquire against a held permit fails without running the
guarded region and without touching any state. -/
theorem locked_busy (st : ServerState) (now : Nat) (key : String)
    (out : SubprocOutcome) (hl : st.lockHeld = true) :
    extract_bingeflix_locked st now key out = (st, none, [Ev.acquireFail]) := by
  simp [extract_bingeflix_locked, hl]

/-- A successful acquire runs the guarded region and always releases. -/
theorem locked_eval (st : ServerState) (now : Nat) (key : String)
    (out : SubprocOutcome) (hl : st.lockHeld = false) :
    extract_bingeflix_locked st now key out =
      ({ (bingeflix_guarded { st with lockHeld := true } now key out).1 with
          lockHeld := false },
        (bingeflix_guarded { st with lockHeld := true } now key out).2,
        [Ev.acquireOk, Ev.launchSubproc, Ev.release]) := by
  simp [extract_bingeflix_locked, hl]

/-- A guarded run that produced no stream leaves the state exactly as it
was. -/
theorem guarded_none (st : ServerState) (now : Nat) (key : String)
    (out : SubprocOutcome)
    (h : (bingeflix_guarded st now key out).2 = none) :
    (bingeflix_guarded st now key out).1 = st := by
  cases out with
  | timeout => rfl
  | exc => rfl
  | ran returncode parsed =>
    by_cases h0 : returncode ≠ 0
    · simp [bingeflix_guarded, h0]
    · cases parsed with
      | none => simp [bingeflix_guarded, h0]
      | some data =>
        by_cases h1 : data.success && pyTruthy data.hls_url
        · by_cases h2 : pyTruthy data.hls_content
          · exfalso; simp [bingeflix_guarded, h0, h1, h2] at h
          · exfalso; simp [bingeflix_guarded, h0, h1, h2] at h
        · simp [bingeflix_guarded, h0, h1]

/-- Evaluation of the guarded region on a successful run with a captured
manifest body: both caches gain an entry under the request key. -/
theorem guarded_success (st : ServerState) (now : Nat) (key : String)
    (j : ScraperJson) (u c : String)
    (hsucc : j.success = true) (hurl : j.hls_url = some u)
    (hu : u.isEmpty = false)
    (hcont : j.hls_content = some c) (hc : c.isEmpty = false) :
    bingeflix_guarded st now key (SubprocOutcome.ran 0 (some j)) =
      ({ st with
          bingeflix_m3u8_cache := insertC st.bingeflix_m3u8_cache key
            ⟨c, j.referer.getD "https://bingeflix.tv/",
              rsplitSlashHead u ++ "/", now⟩,
          bingeflix_cache := insertC st.bingeflix_cache key
            ⟨⟨"direct", "/api/hls/bingeflix/" ++ quoteSafe false key,
              "bingeflix", j.subtitles, some u,
              some (j.referer.getD "https://bingeflix.tv/")⟩, now⟩ },
        some ⟨"direct", "/api/hls/bingeflix/" ++ quoteSafe false key,
          "bingeflix", j.subtitles, some u,
          some (j.referer.getD "https://bingeflix.tv/")⟩) := by
  simp [bingeflix_guarded, hsucc, hurl, hcont, pyTruthy, hu, hc]

/-- Evaluation of `extract_bingeflix_stream` on a fresh successful
subprocess run that captured a manifest body. -/
theorem bingeflix_success (st : ServerState) (now : Nat) (tmdb_id : Nat)
    (ct : String) (season episode : Option Nat) (j : ScraperJson)
    (u c : String)
    (hmiss : cache_hit st now (cache_key tmdb_id ct season episode) = none)
    (hlock : st.lockHeld = false)
    (hsucc : j.success = true) (hurl : j.hls_url = some u)
    (hu : u.isEmpty = false)
    (hcont : j.hls_content = some c) (hc : c.isEmpty = false) :
    extract_bingeflix_stream st now tmdb_id ct season episode
        (SubprocOutcome.ran 0 (some j)) =
      (⟨insertC st.bingeflix_cache (cache_key tmdb_id ct season episode)
          ⟨⟨"direct",
            "/api/hls/bingeflix/"
              ++ quoteSafe false (cache_key tmdb_id ct season episode),
            "bingeflix", j.subtitles, some u,
            some (j.referer.getD "https://bingeflix.tv/")⟩, now⟩,
        insertC st.bingeflix_m3u8_cache (cache_key tmdb_id ct season episode)
          ⟨c, j.referer.getD "https://bingeflix.tv/",
            rsplitSlashHead u ++ "/", now⟩,
        false⟩,
       some ⟨"direct",
         "/api/hls/bingeflix/"
           ++ quoteSafe false (cache_key tmdb_id ct season episode),
         "bingeflix", j.subtitles, some u,
         some (j.referer.getD "https://bingeflix.tv/")⟩,
       [Ev.acquireOk, Ev.launchSubproc, Ev.release]) := by
  rw [extract_miss _ _ _ _ _ _ _ hmiss, locked_eval _ _ _ _ hlock,
    guarded_success _ _ _ _ _ _ hsucc hurl hu hcont hc]

/-- Evaluation of the guarded region on a successful run WITHOUT a
captured manifest body (`hls_content` absent or empty, hence falsy): the
Result Cache gains an entry whose URL is the passthrough proxy URL, and
the Manifest Cache is untouched. -/
theorem guarded_success_nobody (st : ServerState) (now : Nat) (key : String)
    (j : ScraperJson) (u : String)
    (hsucc : j.success = true) (hurl : j.hls_url = some u)
    (hu : u.isEmpty = false)
    (hcont : pyTruthy j.hls_content = false) :
    bingeflix_guarded st now key (SubprocOutcome.ran 0 (some j)) =
      ({ st with
          bingeflix_cache := insertC st.bingeflix_cache key
            ⟨⟨"direct",
              "/api/hls/proxy?url=" ++ quoteSafe false u ++ "&referer="
                ++ quoteSafe false (j.referer.getD "https://bingeflix.tv/"),
              "bingeflix", j.subtitles, some u,
              some (j.referer.getD "https://bingeflix.tv/")⟩, now⟩ },
        some ⟨"direct",
          "/api/hls/proxy?url=" ++ quoteSafe false u ++ "&referer="
            ++ quoteSafe false (j.referer.getD "https://bingeflix.tv/"),
          "bingeflix", j.subtitles, some u,
          some (j.referer.getD "https://bingeflix.tv/")⟩) := by
  have hu2 : pyTruthy (some u) = true := by simp [pyTruthy, hu]
  simp [bingeflix_guarded, hsucc, hurl, hcont, hu2]

/-- Evaluation of `extract_bingeflix_stream` on a fresh successful
subprocess run without a captured manifest body: the Result Cache is
still populated under the request key; the Manifest Cache is not. -/
theorem bingeflix_success_nobody (st : ServerState) (now : Nat)
    (tmdb_id : Nat) (ct : String) (season episode : Option Nat)
    (j : ScraperJson) (u : String)
    (hmiss : cache_hit st now (cache_key tmdb_id ct season episode) = none)
    (hlock : st.lockHeld = false)
    (hsucc : j.success = true) (hurl : j.hls_url = some u)
    (hu : u.isEmpty = false)
    (hcont : pyTruthy j.hls_content = false) :
    extract_bingeflix_stream st now tmdb_id ct season episode
        (SubprocOutcome.ran 0 (some j)) =
      (⟨insertC st.bingeflix_cache (cache_key tmdb_id ct season episode)
          ⟨⟨"direct",
            "/api/hls/proxy?url=" ++ quoteSafe false u ++ "&referer="
              ++ quoteSafe false (j.referer.getD "https://bingeflix.tv/"),
            "bingeflix", j.subtitles, some u,
            some (j.referer.getD "https://bingeflix.tv/")⟩, now⟩,
        st.bingeflix_m3u8_cache,
        false⟩,
       some ⟨"direct",
         "/api/hls/proxy?url=" ++ quoteSafe false u ++ "&referer="
           ++ quoteSafe false (j.referer.getD "https://bingeflix.tv/"),
         "bingeflix", j.subtitles, some u,
         some (j.referer.getD "https://bingeflix.tv/")⟩,
       [Ev.acquireOk, Ev.launchSubproc, Ev.release]) := by
  rw [extract_miss _ _ _ _ _ _ _ hmiss, locked_eval _ _ _ _ hlock,
    guarded_success_nobody _ _ _ _ _ hsucc hurl hu hcont]

theorem strData_ne_nil_append (a b : String) (ha : a.data ≠ []) :
    (a ++ b).data ≠ [] := by
  rw [strData_append]
  intro h
  exact ha (List.append_eq_nil.mp h).1

/-- The canonical embed URL is never the empty string. -/
theorem vidsrc_embed_url_ne (tmdb_id : Nat) (ct : String)
    (season episode : Option Nat) :
    vidsrc_embed_url tmdb_id ct season episode ≠ "" := by
  unfold vidsrc_embed_url
  split
  · intro h
    exact strData_ne_nil_append "https://vidsrc.to/embed/movie/" _ (by decide)
      (by rw [h])
  · intro h
    have h1 : ("https://vidsrc.to/embed/tv/" : String).data ≠ [] := by decide
    have h2 := strData_ne_nil_append _ (toString tmdb_id) h1
    have h3 := strData_ne_nil_append _ "/" h2
    have h4 := strData_ne_nil_append _ (optStr season) h3
    have h5 := strData_ne_nil_append _ "/" h4
    have h6 := strData_ne_nil_append _ (optStr episode) h5
    exact h6 (by rw [h])

/-- When tier 0 produces no stream it leaves the shared state untouched. -/
theorem bingeflix_none_state (st : ServerState) (now : Nat) (tmdb_id : Nat)
    (ct : String) (season episode : Option Nat) (out : SubprocOutcome)
    (h : (extract_bingeflix_stream st now tmdb_id ct season episode out).2.1
      = none) :
    (extract_bingeflix_stream st now tmdb_id ct season episode out).1 = st := by
  cases hh : cache_hit st now (cache_key tmdb_id ct season episode) with
  | some d =>
    rw [extract_cachehit _ _ _ _ _ _ _ _ hh] at h
    simp at h
  | none =>
    rw [extract_miss _ _ _ _ _ _ _ hh] at h ⊢
    cases hl : st.lockHeld with
    | true => rw [locked_busy _ _ _ _ hl]
    | false =>
      rw [locked_eval _ _ _ _ hl] at h ⊢
      have hg := guarded_none _ _ _ _ h
      rw [hg]
      obtain ⟨rc, mc, lk⟩ := st
      simp only [ServerState.lockHeld] at hl
      subst hl
      rfl

/-- The tiered resolver never mutates state beyond what tier 0 did. -/
theorem vidsrc_state_eq (st : ServerState) (now : Nat) (tmdb_id : Nat)
    (ct : String) (season episode : Option Nat) (out0 : SubprocOutcome)
    (out1 : RemoteOutcome) (out2 : HtmlOutcome) :
    (extract_vidsrc_stream st now tmdb_id ct season episode out0 out1 out2).1
      = (extract_bingeflix_stream st now tmdb_id ct season episode out0).1 := by
  simp only [extract_vidsrc_stream]
  cases h0 : (extract_bingeflix_stream st now tmdb_id ct season episode
      out0).2.1 <;>
    cases h1 : call_vidsrc_scraper out1 <;> cases out2 <;> simp [h0, h1]

/-! Claim theorems. -/

/-- C7: for every request to the cache-backed manifest endpoint with a
given stream id, if no Manifest Cache entry exists for that id, or the
age of the entry exceeds the TTL, the endpoint returns the not-found
"stream not found" response, even though an expired entry object may
still be physically present in the cache map. -/
theorem C7_manifest_endpoint_expiry (st : ServerState) (now : Nat)
    (stream_id : String)
    (h : lookupC st.bingeflix_m3u8_cache stream_id = none ∨
      ∃ e, lookupC st.bingeflix_m3u8_cache stream_id = some e ∧
        now - e.timestamp > BINGEFLIX_CACHE_TTL) :
    serve_bingeflix_m3u8 st now stream_id = ServeResult.notFound := by
  rcases h with h | ⟨e, he, ht⟩
  · simp [serve_bingeflix_m3u8, h]
  · simp [serve_bingeflix_m3u8, he, ht]

/-- Witness for C7: an entry created at time 0 is still physically present
at time 1000 (TTL is 900) yet the endpoint answers not-found. -/
theorem C7_witness :
    serve_bingeflix_m3u8
      ⟨[], [("sid", ⟨"#EXTM3U", "https://r/", "https://b/", 0⟩)], false⟩
      1000 "sid" = ServeResult.notFound := by
  apply C7_manifest_endpoint_expiry
  right
  exact ⟨⟨"#EXTM3U", "https://r/", "https://b/", 0⟩, by decide, by decide⟩

/-- Counterexample to C10 as frozen: with the permit held by another
extraction and a fresh Result Cache entry present, the call returns the
cached success result, not a failure. -/
theorem C10_counterexample :
    (extract_bingeflix_stream
      ⟨[("550_movie_None_None",
          ⟨⟨"direct", "/api/hls/bingeflix/550_movie_None_None", "bingeflix",
            [], none, none⟩, 100⟩)], [], true⟩
      100 550 "movie" none none SubprocOutcome.exc).2.1
      = some ⟨"direct", "/api/hls/bingeflix/550_movie_None_None", "bingeflix",
          [], none, none⟩ := by
  decide

/-- C10 (amended): whenever the single-flight permit is already held AND
the Result Cache holds no fresh entry for the request, the local
browser-extraction tier returns a failure result immediately without
launching the extraction subprocess and without mutating any shared
state: the call evaluates to the unchanged state, `none`, and the trace
`[acquireFail]`, which contains no `launchSubproc` event. -/
theorem C10_amended_busy_no_mutation (st : ServerState) (now : Nat)
    (tmdb_id : Nat) (ct : String) (season episode : Option Nat)
    (out : SubprocOutcome) (hlock : st.lockHeld = true)
    (hmiss : cache_hit st now (cache_key tmdb_id ct season episode) = none) :
    extract_bingeflix_stream st now tmdb_id ct season episode out
      = (st, none, [Ev.acquireFail]) := by
  rw [extract_miss _ _ _ _ _ _ _ hmiss, locked_busy _ _ _ _ hlock]

/-- Witness for the amended C10. -/
theorem C10_amended_witness :
    extract_bingeflix_stream ⟨[], [], true⟩ 0 550 "movie" none none
      SubprocOutcome.exc = (⟨[], [], true⟩, none, [Ev.acquireFail]) :=
  C10_amended_busy_no_mutation ⟨[], [], true⟩ 0 550 "movie" none none
    SubprocOutcome.exc rfl rfl

/-- C3: the single-flight acquire is non-blocking and modelled by a single
test of the permit; if the permit is already held the attempt fails
immediately, the expensive tier is skipped (result `none`, no subprocess
launch, state untouched, treated as tier-unavailable rather than an
error), and on every execution path of the guarded region the permit is
released exactly once per successful acquire and never on a failed
acquire. -/
theorem C3_single_flight_gate (st : ServerState) (now : Nat) (tmdb_id : Nat)
    (ct : String) (season episode : Option Nat) (out : SubprocOutcome) :
    ((extract_bingeflix_stream st now tmdb_id ct season episode out).2.2.count
        Ev.acquireOk ≤ 1) ∧
    ((extract_bingeflix_stream st now tmdb_id ct season episode out).2.2.count
        Ev.release
      = (extract_bingeflix_stream st now tmdb_id ct season
          episode out).2.2.count Ev.acquireOk) ∧
    (Ev.acquireFail ∈
        (extract_bingeflix_stream st now tmdb_id ct season episode out).2.2 →
      (extract_bingeflix_stream st now tmdb_id ct season episode out).2.1
          = none ∧
        Ev.launchSubproc ∉
          (extract_bingeflix_stream st now tmdb_id ct season episode out).2.2 ∧
        (extract_bingeflix_stream st now tmdb_id ct season episode out).1
          = st) ∧
    (st.lockHeld = true →
      Ev.acquireOk ∉
        (extract_bingeflix_stream st now tmdb_id ct season episode out).2.2) ∧
    (Ev.acquireOk ∈
        (extract_bingeflix_stream st now tmdb_id ct season episode out).2.2 →
      (extract_bingeflix_stream st now tmdb_id ct season episode
        out).1.lockHeld = false) := by
  cases hh : cache_hit st now (cache_key tmdb_id ct season episode) with
  | some d =>
    rw [extract_cachehit st now tmdb_id ct season episode out d hh]
    refine ⟨by simp, by simp, ?_, ?_, ?_⟩
    · intro hmem; simp at hmem
    · intro _; simp
    · intro hmem; simp at hmem
  | none =>
    rw [extract_miss st now tmdb_id ct season episode out hh]
    cases hl : st.lockHeld with
    | true =>
      rw [locked_busy st now _ out hl]
      refine ⟨by simp, by simp, ?_, ?_, ?_⟩
      · intro _; exact ⟨rfl, by simp, rfl⟩
      · intro _; simp
      · intro hmem; simp at hmem
    | false =>
      rw [locked_eval st now _ out hl]
      refine ⟨by simp, by simp, ?_, ?_, ?_⟩
      · intro hmem; simp at hmem
      · intro hcontr
        exact Bool.noConfusion hcontr
      · intro _; rfl

/-- Witness for C3: a concrete held-permit call fails with no result. -/
theorem C3_witness :
    (extract_bingeflix_stream ⟨[], [], true⟩ 0 550 "movie" none none
      SubprocOutcome.exc).2.1 = none :=
  ((C3_single_flight_gate ⟨[], [], true⟩ 0 550 "movie" none none
    SubprocOutcome.exc).2.2.1 (by decide)).1

/-- C1: the resolver is total over every combination of tier outcomes
(exceptions included as outcome constructors), so it never propagates an
exception; and whenever every tier fails, the returned result has stream
type `embed` and its URL is the non-empty canonical embed URL built from
the request. -/
theorem C1_embed_fallback (st : ServerState) (now : Nat) (tmdb_id : Nat)
    (ct : String) (season episode : Option Nat) (out0 : SubprocOutcome)
    (out1 : RemoteOutcome) (out2 : HtmlOutcome)
    (h0 : (extract_bingeflix_stream st now tmdb_id ct season episode
      out0).2.1 = none)
    (h1 : call_vidsrc_scraper out1 = none)
    (h2 : out2 = HtmlOutcome.exc ∨ out2 = HtmlOutcome.notFound) :
    (extract_vidsrc_stream st now tmdb_id ct season episode out0 out1
        out2).2.1.type = "embed" ∧
    (extract_vidsrc_stream st now tmdb_id ct season episode out0 out1
        out2).2.1.url = vidsrc_embed_url tmdb_id ct season episode ∧
    (extract_vidsrc_stream st now tmdb_id ct season episode out0 out1
        out2).2.1.url ≠ "" := by
  have hne := vidsrc_embed_url_ne tmdb_id ct season episode
  rcases h2 with h2 | h2 <;> subst h2 <;>
    simp [extract_vidsrc_stream, h0, h1, hne]

/-- Witness for C1: all three tiers fail concretely; the result is the
canonical movie embed URL. -/
theorem C1_witness :
    (extract_vidsrc_stream ⟨[], [], false⟩ 0 550 "movie" none none
        SubprocOutcome.exc RemoteOutcome.fail HtmlOutcome.exc).2.1.type
      = "embed" ∧
    (extract_vidsrc_stream ⟨[], [], false⟩ 0 550 "movie" none none
        SubprocOutcome.exc RemoteOutcome.fail HtmlOutcome.exc).2.1.url
      = vidsrc_embed_url 550 "movie" none none :=
  ⟨(C1_embed_fallback ⟨[], [], false⟩ 0 550 "movie" none none
      SubprocOutcome.exc RemoteOutcome.fail HtmlOutcome.exc (by decide) rfl
      (Or.inl rfl)).1,
   (C1_embed_fallback ⟨[], [], false⟩ 0 550 "movie" none none
      SubprocOutcome.exc RemoteOutcome.fail HtmlOutcome.exc (by decide) rfl
      (Or.inl rfl)).2.1⟩

/-- Counterexample to C4 as frozen: the line `" #EXTM3U"` is non-empty and
does not start with the comment marker, so the claim classifies it as a
URI line to be replaced by a proxy URL; yet both loops treat it as a
non-URI line (classification is by the stripped form), and the
passthrough-proxy loop does not even pass it through verbatim: it emits
the stripped form. -/
theorem C4_counterexample :
    (" #EXTM3U" : String).isEmpty = false ∧
    pyStartsWith " #EXTM3U" "#" = false ∧
    is_uri_line " #EXTM3U" = false ∧
    serve_rewrite_line "https://cdn.example/a/b/" "https://r/" " #EXTM3U"
      = " #EXTM3U" ∧
    proxy_rewrite_line "https://cdn.example/a/b/" "https://r/" " #EXTM3U"
      = "#EXTM3U" ∧
    (" #EXTM3U" : String) ≠ "#EXTM3U" := by
  decide

/-- C4 (amended): both rewriting paths preserve the total line count and
line order; a line is replaced by a proxy URL exactly when its
whitespace-stripped form is non-empty and does not start with the comment
marker; every other line passes through verbatim in the cached-manifest
path, while the passthrough-proxy path emits it whitespace-stripped
(hence verbatim only when the line carries no surrounding whitespace). -/
theorem C4_amended_rewrite_structure (base_url referer : String)
    (lines : List String) :
    (serve_rewrite_lines base_url referer lines).length = lines.length ∧
    (proxy_rewrite_lines base_url referer lines).length = lines.length ∧
    List.Forall₂ (fun lin out =>
      (is_uri_line lin = true →
        out = proxyUrlFor false (resolveTarget base_url (pyStrip lin)) referer)
      ∧ (is_uri_line lin = false → out = lin))
      lines (serve_rewrite_lines base_url referer lines) ∧
    List.Forall₂ (fun lin out =>
      (is_uri_line lin = true →
        out = proxyUrlFor true (resolveTarget base_url (pyStrip lin)) referer)
      ∧ (is_uri_line lin = false → out = pyStrip lin))
      lines (proxy_rewrite_lines base_url referer lines) := by
  refine ⟨by simp [serve_rewrite_lines], by simp [proxy_rewrite_lines],
    ?_, ?_⟩
  · induction lines with
    | nil => exact List.Forall₂.nil
    | cons l t ih =>
      refine List.Forall₂.cons ⟨?_, ?_⟩ ih
      · intro h
        simp only [is_uri_line, Bool.and_eq_true] at h
        simp [serve_rewrite_line, h.1, h.2]
      · intro h
        have h2 : (!(pyStrip l).isEmpty && !pyStartsWith (pyStrip l) "#")
            = false := h
        simp [serve_rewrite_line, h2]
  · induction lines with
    | nil => exact List.Forall₂.nil
    | cons l t ih =>
      refine List.Forall₂.cons ⟨?_, ?_⟩ ih
      · intro h
        simp only [is_uri_line, Bool.and_eq_true] at h
        simp [proxy_rewrite_line, h.1, h.2]
      · intro h
        have h2 : (!(pyStrip l).isEmpty && !pyStartsWith (pyStrip l) "#")
            = false := h
        simp [proxy_rewrite_line, h2]

/-- Witness for the amended C4: a two-line manifest keeps its two lines. -/
theorem C4_amended_witness :
    (serve_rewrite_lines "https://cdn.example/a/b/" "https://r/"
      ["#EXTM3U", "seg1.ts"]).length = 2 := by
  have h := (C4_amended_rewrite_structure "https://cdn.example/a/b/"
    "https://r/" ["#EXTM3U", "seg1.ts"]).1
  rw [h]
  rfl

/-- Counterexample to C5 as frozen: the line `"httpd.ts"` is a relative
URI (it is not scheme-prefixed), so the claim requires it to be resolved
by concatenation with the base; the code instead uses it as-is, because
its test is a `http` literal-prefix test. -/
theorem C5_counterexample :
    schemePrefixed "httpd.ts" = false ∧
    resolveTarget "https://cdn.example/a/b/" "httpd.ts" = "httpd.ts" ∧
    spec_resolveTarget "https://cdn.example/a/b/" "httpd.ts"
      = "https://cdn.example/a/b/" ++ "httpd.ts" ∧
    resolveTarget "https://cdn.example/a/b/" "httpd.ts"
      ≠ spec_resolveTarget "https://cdn.example/a/b/" "httpd.ts" := by
  refine ⟨by decide, by decide, by decide, by decide⟩

/-- C5 (amended): for every URI line of a manifest, both rewriting paths
resolve the target by the literal-prefix rule of the source: a stripped
line starting with `http` is used as-is, any other line is resolved by
string concatenation with `base_url`; in particular the two examples of
the claim hold. -/
theorem C5_amended_resolution :
    (∀ base_url referer line, is_uri_line line = true →
      serve_rewrite_line base_url referer line
        = proxyUrlFor false (resolveTarget base_url (pyStrip line)) referer ∧
      proxy_rewrite_line base_url referer line
        = proxyUrlFor true (resolveTarget base_url (pyStrip line)) referer) ∧
    (∀ base_url line, pyStartsWith line "http" = true →
      resolveTarget base_url line = line) ∧
    (∀ base_url line, pyStartsWith line "http" = false →
      resolveTarget base_url line = base_url ++ line) ∧
    resolveTarget "https://cdn.example/a/b/" "seg1.ts"
      = "https://cdn.example/a/b/seg1.ts" ∧
    resolveTarget "https://cdn.example/a/b/" "https://other.example/seg1.ts"
      = "https://other.example/seg1.ts" := by
  refine ⟨?_, ?_, ?_, by decide, by decide⟩
  · intro b r l h
    simp only [is_uri_line, Bool.and_eq_true] at h
    constructor
    · simp [serve_rewrite_line, h.1, h.2]
    · simp [proxy_rewrite_line, h.1, h.2]
  · intro b l h; simp [resolveTarget, h]
  · intro b l h; simp [resolveTarget, h]

/-- Witness for the amended C5: a relative segment line through the
cached-path rewriter. -/
theorem C5_amended_witness :
    serve_rewrite_line "https://cdn.example/a/b/" "https://r/" "seg1.ts"
      = proxyUrlFor false "https://cdn.example/a/b/seg1.ts" "https://r/" := by
  have h := (C5_amended_resolution.1 "https://cdn.example/a/b/" "https://r/"
    "seg1.ts" (by decide)).1
  rw [h]
  decide

/-- Counterexample to C9 as frozen: a URL that merely contains `.m3u8` as
a substring (suffix `.mp4`, content type `video/mp4`) is treated as a
manifest by the code, though the URL has no HLS-manifest suffix and the
content type is not an HLS manifest type. -/
theorem C9_counterexample :
    isManifestResult (proxy_hls "https://x.example/v.m3u8.mp4" "https://r/"
      ⟨"video/mp4", "DATA", 200⟩) = true ∧
    spec_is_manifest_fetch "https://x.example/v.m3u8.mp4" "video/mp4"
      = false := by
  refine ⟨by decide, by decide⟩

/-- C9 (amended): an upstream fetch of the passthrough relay proxy is
treated as a manifest (body rewritten with the fetched URL directory as
base and returned as text) exactly when the target URL contains `.m3u8`
as a substring or the upstream content type contains an HLS manifest
type as a substring; otherwise the body is streamed through unmodified
with the upstream status. -/
theorem C9_amended_detection (url referer : String) (resp : UpstreamResp) :
    (isManifestResult (proxy_hls url referer resp)
      = (strContains url ".m3u8"
        || strContains resp.content_type "application/vnd.apple.mpegurl"
        || strContains resp.content_type "application/x-mpegurl")) ∧
    (is_manifest_fetch url resp.content_type = true →
      proxy_hls url referer resp = ProxyResult.manifest
        (proxy_rewrite resp.body (rsplitSlashHead url ++ "/") referer)) ∧
    (is_manifest_fetch url resp.content_type = false →
      proxy_hls url referer resp
        = ProxyResult.passthrough resp.body resp.status) := by
  refine ⟨?_, ?_, ?_⟩
  · show isManifestResult (proxy_hls url referer resp)
      = is_manifest_fetch url resp.content_type
    by_cases h : is_manifest_fetch url resp.content_type
    · simp [proxy_hls, h, isManifestResult]
    · simp only [Bool.not_eq_true] at h
      simp [proxy_hls, h, isManifestResult]
  · intro h; simp [proxy_hls, h]
  · intro h; simp [proxy_hls, h]

/-- Witness for the amended C9: a `.m3u8` URL with a generic content type
takes the manifest branch. -/
theorem C9_amended_witness :
    proxy_hls "https://x.example/a/master.m3u8" "https://r/"
        ⟨"application/octet-stream", "#EXTM3U", 200⟩
      = ProxyResult.manifest (proxy_rewrite "#EXTM3U" "https://x.example/a/"
        "https://r/") := by
  have h := (C9_amended_detection "https://x.example/a/master.m3u8"
    "https://r/" ⟨"application/octet-stream", "#EXTM3U", 200⟩).2.1 (by decide)
  rw [h]
  decide

/-- A fresh cache hit short-circuits the whole resolver. -/
theorem vidsrc_cachehit (st : ServerState) (now : Nat) (tmdb_id : Nat)
    (ct : String) (season episode : Option Nat) (out0 : SubprocOutcome)
    (out1 : RemoteOutcome) (out2 : HtmlOutcome) (d : StreamData)
    (h : cache_hit st now (cache_key tmdb_id ct season episode) = some d) :
    extract_vidsrc_stream st now tmdb_id ct season episode out0 out1 out2
      = (st, d, [Ev.cacheHit]) := by
  have h0 := extract_cachehit st now tmdb_id ct season episode out0 d h
  simp [extract_vidsrc_stream, h0]

/-- A result inserted at time `t` is a fresh hit at any time within the
TTL. -/
theorem cache_hit_after_insert (m : List (String × ResultEntry))
    (b : List (String × ManifestEntry)) (lk : Bool) (key : String)
    (d : StreamData) (t now2 : Nat) (h : now2 - t < BINGEFLIX_CACHE_TTL) :
    cache_hit ⟨insertC m key ⟨d, t⟩, b, lk⟩ now2 key = some d := by
  simp [cache_hit, insertC, lookupC, h]

/-- The resolver on a fresh successful tier 0 run with a captured body. -/
theorem vidsrc_tier0_success (st : ServerState) (now : Nat) (tmdb_id : Nat)
    (ct : String) (season episode : Option Nat) (j : ScraperJson)
    (u c : String) (out1 : RemoteOutcome) (out2 : HtmlOutcome)
    (hmiss : cache_hit st now (cache_key tmdb_id ct season episode) = none)
    (hlock : st.lockHeld = false)
    (hsucc : j.success = true) (hurl : j.hls_url = some u)
    (hu : u.isEmpty = false)
    (hcont : j.hls_content = some c) (hc : c.isEmpty = false) :
    extract_vidsrc_stream st now tmdb_id ct season episode
        (SubprocOutcome.ran 0 (some j)) out1 out2 =
      (⟨insertC st.bingeflix_cache (cache_key tmdb_id ct season episode)
          ⟨⟨"direct",
            "/api/hls/bingeflix/"
              ++ quoteSafe false (cache_key tmdb_id ct season episode),
            "bingeflix", j.subtitles, some u,
            some (j.referer.getD "https://bingeflix.tv/")⟩, now⟩,
        insertC st.bingeflix_m3u8_cache (cache_key tmdb_id ct season episode)
          ⟨c, j.referer.getD "https://bingeflix.tv/",
            rsplitSlashHead u ++ "/", now⟩,
        false⟩,
       ⟨"direct",
         "/api/hls/bingeflix/"
           ++ quoteSafe false (cache_key tmdb_id ct season episode),
         "bingeflix", j.subtitles, some u,
         some (j.referer.getD "https://bingeflix.tv/")⟩,
       [Ev.acquireOk, Ev.launchSubproc, Ev.release]) := by
  have hmain := bingeflix_success st now tmdb_id ct season episode j u c
    hmiss hlock hsucc hurl hu hcont hc
  simp [extract_vidsrc_stream, hmain]

/-- The resolver on a fresh successful tier 0 run without a captured
body: the result is the passthrough proxy URL and only the Result Cache
is populated. -/
theorem vidsrc_tier0_success_nobody (st : ServerState) (now : Nat)
    (tmdb_id : Nat) (ct : String) (season episode : Option Nat)
    (j : ScraperJson) (u : String) (out1 : RemoteOutcome)
    (out2 : HtmlOutcome)
    (hmiss : cache_hit st now (cache_key tmdb_id ct season episode) = none)
    (hlock : st.lockHeld = false)
    (hsucc : j.success = true) (hurl : j.hls_url = some u)
    (hu : u.isEmpty = false)
    (hcont : pyTruthy j.hls_content = false) :
    extract_vidsrc_stream st now tmdb_id ct season episode
        (SubprocOutcome.ran 0 (some j)) out1 out2 =
      (⟨insertC st.bingeflix_cache (cache_key tmdb_id ct season episode)
          ⟨⟨"direct",
            "/api/hls/proxy?url=" ++ quoteSafe false u ++ "&referer="
              ++ quoteSafe false (j.referer.getD "https://bingeflix.tv/"),
            "bingeflix", j.subtitles, some u,
            some (j.referer.getD "https://bingeflix.tv/")⟩, now⟩,
        st.bingeflix_m3u8_cache,
        false⟩,
       ⟨"direct",
         "/api/hls/proxy?url=" ++ quoteSafe false u ++ "&referer="
           ++ quoteSafe false (j.referer.getD "https://bingeflix.tv/"),
         "bingeflix", j.subtitles, some u,
         some (j.referer.getD "https://bingeflix.tv/")⟩,
       [Ev.acquireOk, Ev.launchSubproc, Ev.release]) := by
  have hmain := bingeflix_success_nobody st now tmdb_id ct season episode j u
    hmiss hlock hsucc hurl hu hcont
  simp [extract_vidsrc_stream, hmain]

/-- C2: when tier 0 (the local browser-automation extraction) succeeds
with a captured manifest body on a fresh request, both the Result Cache
and the Manifest Cache are populated under the key derived from the
request (the Result Cache holding the produced result with its
timestamp, the Manifest Cache holding the captured body), and a second
identical request at any time within the TTL window returns the same
result, hence the same `proxy_url`, leaves the state untouched, and its
trace is a bare cache hit: no subprocess launch, no remote HTTP call, no
scrape. -/
theorem C2_tier0_success_caching (st : ServerState) (now : Nat)
    (tmdb_id : Nat) (ct : String) (season episode : Option Nat)
    (j : ScraperJson) (u c : String) (out1 : RemoteOutcome)
    (out2 : HtmlOutcome)
    (hmiss : cache_hit st now (cache_key tmdb_id ct season episode) = none)
    (hlock : st.lockHeld = false)
    (hsucc : j.success = true) (hurl : j.hls_url = some u)
    (hu : u.isEmpty = false)
    (hcont : j.hls_content = some c) (hc : c.isEmpty = false) :
    ∃ st1 sd,
      extract_vidsrc_stream st now tmdb_id ct season episode
          (SubprocOutcome.ran 0 (some j)) out1 out2
        = (st1, sd, [Ev.acquireOk, Ev.launchSubproc, Ev.release]) ∧
      lookupC st1.bingeflix_cache (cache_key tmdb_id ct season episode)
        = some ⟨sd, now⟩ ∧
      (∃ m : ManifestEntry,
        lookupC st1.bingeflix_m3u8_cache (cache_key tmdb_id ct season episode)
          = some m ∧ m.content = c ∧ m.timestamp = now) ∧
      (∀ now2 out0b out1b out2b, now2 - now < BINGEFLIX_CACHE_TTL →
        extract_vidsrc_stream st1 now2 tmdb_id ct season episode out0b out1b
          out2b = (st1, sd, [Ev.cacheHit])) := by
  have hmain := vidsrc_tier0_success st now tmdb_id ct season episode j u c
    out1 out2 hmiss hlock hsucc hurl hu hcont hc
  refine ⟨_, _, hmain, lookupC_insertC_self _ _ _,
    ⟨_, lookupC_insertC_self _ _ _, rfl, rfl⟩, ?_⟩
  intro now2 out0b out1b out2b httl
  exact vidsrc_cachehit _ _ _ _ _ _ _ _ _ _
    (cache_hit_after_insert _ _ _ _ _ _ _ httl)

/-- Witness for C2 at a concrete request and scraper response. -/
theorem C2_witness :
    ∃ st1 sd,
      extract_vidsrc_stream ⟨[], [], false⟩ 0 550 "movie" none none
          (SubprocOutcome.ran 0 (some ⟨true,
            some "https://x.example/a/master.m3u8", some "#EXTM3U",
            some "https://x.example/", []⟩))
          RemoteOutcome.fail HtmlOutcome.notFound
        = (st1, sd, [Ev.acquireOk, Ev.launchSubproc, Ev.release]) ∧
      lookupC st1.bingeflix_cache (cache_key 550 "movie" none none)
        = some ⟨sd, 0⟩ ∧
      (∃ m : ManifestEntry,
        lookupC st1.bingeflix_m3u8_cache (cache_key 550 "movie" none none)
          = some m ∧ m.content = "#EXTM3U" ∧ m.timestamp = 0) ∧
      (∀ now2 out0b out1b out2b, now2 - 0 < BINGEFLIX_CACHE_TTL →
        extract_vidsrc_stream st1 now2 550 "movie" none none out0b out1b
          out2b = (st1, sd, [Ev.cacheHit])) :=
  C2_tier0_success_caching ⟨[], [], false⟩ 0 550 "movie" none none
    ⟨true, some "https://x.example/a/master.m3u8", some "#EXTM3U",
      some "https://x.example/", []⟩
    "https://x.example/a/master.m3u8" "#EXTM3U" RemoteOutcome.fail
    HtmlOutcome.notFound rfl rfl rfl rfl rfl rfl rfl

/-- Counterexample to C6 as frozen: tier 0 fails (bad JSON exit), the
remote service tier succeeds (source "alpha", a direct stream), yet the
Result Cache is exactly as empty as before the call: only tier 0 ever
populates it. -/
theorem C6_counterexample :
    (extract_vidsrc_stream ⟨[], [], false⟩ 0 550 "movie" none none
      (SubprocOutcome.ran 1 none)
      (RemoteOutcome.ok [("alpha",
        ⟨some "https://x.example/a/b.m3u8", some "https://x.example/", []⟩)])
      HtmlOutcome.notFound).2.1.type = "direct" ∧
    (extract_vidsrc_stream ⟨[], [], false⟩ 0 550 "movie" none none
      (SubprocOutcome.ran 1 none)
      (RemoteOutcome.ok [("alpha",
        ⟨some "https://x.example/a/b.m3u8", some "https://x.example/", []⟩)])
      HtmlOutcome.notFound).2.1.source = "alpha" ∧
    (extract_vidsrc_stream ⟨[], [], false⟩ 0 550 "movie" none none
      (SubprocOutcome.ran 1 none)
      (RemoteOutcome.ok [("alpha",
        ⟨some "https://x.example/a/b.m3u8", some "https://x.example/", []⟩)])
      HtmlOutcome.notFound).1.bingeflix_cache = [] := by
  refine ⟨by decide, by decide, by decide⟩

/-- C6 (amended): only tier 0 populates the Result Cache.  Whenever tier
0 produces no result, the resolver returns with the shared state exactly
as it was, whichever later tier produced the answer; and whenever tier 0
succeeds afresh — on the branch that captured a manifest body as well as
on the branch that did not — the Result Cache of the returned state
holds the produced result with its timestamp under the key derived from
the request. -/
theorem C6_amended_result_cache (st : ServerState) (now : Nat)
    (tmdb_id : Nat) (ct : String) (season episode : Option Nat)
    (out0 : SubprocOutcome) (out1 : RemoteOutcome) (out2 : HtmlOutcome) :
    ((extract_bingeflix_stream st now tmdb_id ct season episode out0).2.1
        = none →
      (extract_vidsrc_stream st now tmdb_id ct season episode out0 out1
        out2).1 = st) ∧
    (∀ j u c, out0 = SubprocOutcome.ran 0 (some j) →
      cache_hit st now (cache_key tmdb_id ct season episode) = none →
      st.lockHeld = false → j.success = true → j.hls_url = some u →
      u.isEmpty = false → j.hls_content = some c → c.isEmpty = false →
      ∃ e : ResultEntry,
        lookupC (extract_vidsrc_stream st now tmdb_id ct season episode out0
            out1 out2).1.bingeflix_cache (cache_key tmdb_id ct season episode)
          = some e ∧
        e.data = (extract_vidsrc_stream st now tmdb_id ct season episode out0
          out1 out2).2.1 ∧
        e.timestamp = now) ∧
    (∀ j u, out0 = SubprocOutcome.ran 0 (some j) →
      cache_hit st now (cache_key tmdb_id ct season episode) = none →
      st.lockHeld = false → j.success = true → j.hls_url = some u →
      u.isEmpty = false → pyTruthy j.hls_content = false →
      ∃ e : ResultEntry,
        lookupC (extract_vidsrc_stream st now tmdb_id ct season episode out0
            out1 out2).1.bingeflix_cache (cache_key tmdb_id ct season episode)
          = some e ∧
        e.data = (extract_vidsrc_stream st now tmdb_id ct season episode out0
          out1 out2).2.1 ∧
        e.timestamp = now) := by
  refine ⟨?_, ?_, ?_⟩
  · intro h
    rw [vidsrc_state_eq]
    exact bingeflix_none_state _ _ _ _ _ _ _ h
  · intro j u c hout hmiss hlock hsucc hurl hu hcont hc
    subst hout
    have hmain := vidsrc_tier0_success st now tmdb_id ct season episode j u c
      out1 out2 hmiss hlock hsucc hurl hu hcont hc
    rw [hmain]
    exact ⟨_, lookupC_insertC_self _ _ _, rfl, rfl⟩
  · intro j u hout hmiss hlock hsucc hurl hu hcont
    subst hout
    have hmain := vidsrc_tier0_success_nobody st now tmdb_id ct season episode
      j u out1 out2 hmiss hlock hsucc hurl hu hcont
    rw [hmain]
    exact ⟨_, lookupC_insertC_self _ _ _, rfl, rfl⟩

/-- Witness for the amended C6: a failing tier 0 with a succeeding remote
tier leaves the state unchanged, and a fresh tier 0 success without a
captured body (hls_content absent) still populates the Result Cache. -/
theorem C6_amended_witness :
    ((extract_vidsrc_stream ⟨[], [], false⟩ 0 550 "movie" none none
      (SubprocOutcome.ran 1 none)
      (RemoteOutcome.ok [("alpha",
        ⟨some "https://x.example/a/b.m3u8", some "https://x.example/", []⟩)])
      HtmlOutcome.notFound).1 = ⟨[], [], false⟩) ∧
    (∃ e : ResultEntry,
      lookupC (extract_vidsrc_stream ⟨[], [], false⟩ 0 550 "movie" none none
          (SubprocOutcome.ran 0 (some ⟨true, some "https://x.example/a/b.m3u8",
            none, some "https://x.example/", []⟩))
          RemoteOutcome.fail HtmlOutcome.notFound).1.bingeflix_cache
        (cache_key 550 "movie" none none) = some e ∧
      e.data = (extract_vidsrc_stream ⟨[], [], false⟩ 0 550 "movie" none none
          (SubprocOutcome.ran 0 (some ⟨true, some "https://x.example/a/b.m3u8",
            none, some "https://x.example/", []⟩))
          RemoteOutcome.fail HtmlOutcome.notFound).2.1 ∧
      e.timestamp = 0) :=
  ⟨(C6_amended_result_cache ⟨[], [], false⟩ 0 550 "movie" none none
      (SubprocOutcome.ran 1 none)
      (RemoteOutcome.ok [("alpha",
        ⟨some "https://x.example/a/b.m3u8", some "https://x.example/", []⟩)])
      HtmlOutcome.notFound).1 (by decide),
   (C6_amended_result_cache ⟨[], [], false⟩ 0 550 "movie" none none
      (SubprocOutcome.ran 0 (some ⟨true, some "https://x.example/a/b.m3u8",
        none, some "https://x.example/", []⟩))
      RemoteOutcome.fail HtmlOutcome.notFound).2.2
      ⟨true, some "https://x.example/a/b.m3u8", none,
        some "https://x.example/", []⟩
      "https://x.example/a/b.m3u8" rfl rfl rfl rfl rfl rfl rfl⟩

/-- C8: every ManifestCacheEntry the extraction creates has as its
`base_url` the original captured manifest URL with its last path segment
removed and a trailing slash appended: there exist a prefix and a
slash-free segment with `base_url = prefix-slash` and
`base_url ++ segment = url`. -/
theorem C8_base_url_invariant (st : ServerState) (now : Nat)
    (tmdb_id : Nat) (ct : String) (season episode : Option Nat)
    (j : ScraperJson) (u c : String)
    (hmiss : cache_hit st now (cache_key tmdb_id ct season episode) = none)
    (hlock : st.lockHeld = false)
    (hsucc : j.success = true) (hurl : j.hls_url = some u)
    (hu : u.isEmpty = false)
    (hcont : j.hls_content = some c) (hc : c.isEmpty = false)
    (hslash : '/' ∈ u.data) :
    ∃ m : ManifestEntry,
      lookupC (extract_bingeflix_stream st now tmdb_id ct season episode
          (SubprocOutcome.ran 0 (some j))).1.bingeflix_m3u8_cache
        (cache_key tmdb_id ct season episode) = some m ∧
      m.base_url = rsplitSlashHead u ++ "/" ∧
      ∃ seg : String, '/' ∉ seg.data ∧ m.base_url ++ seg = u := by
  rw [bingeflix_success st now tmdb_id ct season episode j u c hmiss hlock
    hsucc hurl hu hcont hc]
  refine ⟨_, lookupC_insertC_self _ _ _, rfl, ?_⟩
  obtain ⟨seg, hseg, heq⟩ := rsplitSlashHead_spec u hslash
  exact ⟨seg, hseg, heq⟩

/-- Witness for C8 at a concrete captured manifest URL. -/
theorem C8_witness :
    ∃ m : ManifestEntry,
      lookupC (extract_bingeflix_stream ⟨[], [], false⟩ 0 550 "movie" none
          none (SubprocOutcome.ran 0 (some ⟨true,
            some "https://x.example/a/master.m3u8", some "#EXTM3U",
            some "https://x.example/", []⟩))).1.bingeflix_m3u8_cache
        (cache_key 550 "movie" none none) = some m ∧
      m.base_url = rsplitSlashHead "https://x.example/a/master.m3u8" ++ "/" ∧
      ∃ seg : String, '/' ∉ seg.data ∧
        m.base_url ++ seg = "https://x.example/a/master.m3u8" :=
  C8_base_url_invariant ⟨[], [], false⟩ 0 550 "movie" none none
    ⟨true, some "https://x.example/a/master.m3u8", some "#EXTM3U",
      some "https://x.example/", []⟩
    "https://x.example/a/master.m3u8" "#EXTM3U" rfl rfl rfl rfl rfl rfl rfl
    (by decide)

end GlitchBox
